import Mathlib

/-!
Shallow embedding of the shopping-cart-service cart manager
(package `cart`, validated version, plus the request-adapter layer in
`internal/server/server.go`).

Modelling conventions:
- `float64` prices are modelled as `Rat` (exact arithmetic), `int32`/`int64`
  integers as `Int` (the operations never overflow in the ranges the claims
  concern).
- The Redis store is a pure state: a map from key to a hash
  (field → stored value) plus a map from key to the last TTL set on it.
  Go's map iteration is replaced by list order; the aggregates computed are
  order-independent.
- JSON (de)serialization of `Item` is modelled abstractly: `jsonMarshal`
  always succeeds (marshalling this struct cannot fail in Go), and a stored
  value either is the encoding of an `Item` or is an arbitrary blob on which
  `jsonUnmarshal` fails.
- I/O failure of each individual Redis call is injected through an explicit
  `Option String` argument per call site (`none` = the call succeeds,
  `some e` = the client returns error `e`); a failed call leaves the store
  state unchanged. The catalog client is an arbitrary function from SKU to a
  reply (product found / gRPC NotFound / other gRPC error).
-/

/-- The `cart.Item` struct: one cart entry as stored in Redis. -/
structure Item where
  Quantity : Int
  Price : Rat
  Name : String
  ImageURL : String
  ItemTotalPrice : Rat
deriving Repr, DecidableEq

/-- The product message returned by the catalog service
(`product.GetProductBySKUResponse.Product`). -/
structure Product where
  Price : Rat
  Name : String
  ImageUrl : String
  StockQuantity : Int
deriving Repr, DecidableEq

/-- Outcome of `productClient.GetProductBySKU`: a product, a gRPC `NotFound`
status, or any other gRPC error. -/
inductive CatalogReply where
  | found (p : Product)
  | notFound
  | failed (e : String)
deriving Repr, DecidableEq

/-- The catalog client, as an arbitrary SKU → reply function. -/
def Catalog : Type := String → CatalogReply

/-- A value stored in a Redis hash field: either the JSON encoding of an
`Item`, or an arbitrary blob that does not decode. -/
inductive StoredVal where
  | enc (item : Item)
  | blob (s : String)
deriving Repr, DecidableEq

/-- Model of `json.Marshal` of an `Item` (cannot fail for this struct). -/
def jsonMarshal (item : Item) : StoredVal := .enc item

/-- Model of `json.Unmarshal` of a stored value into an `Item`; `none` models a
deserialization error. -/
def jsonUnmarshal : StoredVal → Option Item
  | .enc item => some item
  | .blob _ => none

/-- The error values of the cart package (`ErrItemNotFound`, ...), the
deserialization failure, and propagated store / catalog errors. -/
inductive CartErr where
  | itemNotFound
  | productNotFound
  | insufficientStock
  | invalidQuantity
  | invalidSKU
  | corruptEntry
  | storeErr (e : String)
  | catalogErr (e : String)
deriving Repr, DecidableEq

/-- Association-list lookup (Redis hashes and the key table). -/
def alGet {α : Type} : List (String × α) → String → Option α
  | [], _ => none
  | (k, v) :: r, q => if k = q then some v else alGet r q

/-- Association-list update/insert. -/
def alSet {α : Type} : List (String × α) → String → α → List (String × α)
  | [], q, v => [(q, v)]
  | (k, w) :: r, q, v => if k = q then (k, v) :: r else (k, w) :: alSet r q v

/-- Association-list deletion. -/
def alDel {α : Type} : List (String × α) → String → List (String × α)
  | [], _ => []
  | (k, w) :: r, q => if k = q then alDel r q else (k, w) :: alDel r q

/-- The Redis store state: hashes per key, and the TTL (seconds) last set on
each key. A key absent from `hashes` does not exist. -/
structure RedisState where
  hashes : List (String × List (String × StoredVal))
  expire : List (String × Int)
deriving Repr, DecidableEq

/-- Model of `HGetAll key`: all fields of a hash; a missing key yields an empty map. -/
def hgetAll (st : RedisState) (key : String) : List (String × StoredVal) :=
  (alGet st.hashes key).getD []

/-- Model of `HGet key field`: `none` models the `redis.Nil` reply (field or key
absent). -/
def hget (st : RedisState) (key field : String) : Option StoredVal :=
  alGet (hgetAll st key) field

/-- Model of `HSet key field value`: creates the key if needed; does not touch TTL. -/
def hsetOp (st : RedisState) (key field : String) (v : StoredVal) : RedisState :=
  { st with hashes := alSet st.hashes key (alSet (hgetAll st key) field v) }

/-- Model of `HDel key field`: removes the field; when the hash becomes empty the
key itself (and its TTL) is removed, as in Redis. -/
def hdelOp (st : RedisState) (key field : String) : RedisState :=
  let fields := alDel (hgetAll st key) field
  if fields.isEmpty then
    { hashes := alDel st.hashes key, expire := alDel st.expire key }
  else
    { st with hashes := alSet st.hashes key fields }

/-- Model of `Del key`: removes the key and its TTL. -/
def delKeyOp (st : RedisState) (key : String) : RedisState :=
  { hashes := alDel st.hashes key, expire := alDel st.expire key }

/-- Model of `Expire key ttl`: sets the TTL when the key exists, else does nothing. -/
def expireOp (st : RedisState) (key : String) (ttl : Int) : RedisState :=
  if (alGet st.hashes key).isSome then
    { st with expire := alSet st.expire key ttl }
  else
    st

/-- Key derivation `fmt.Sprintf("cart:%d", userID)`. -/
def cartKey (userID : Int) : String := "cart:" ++ toString userID

/-- The accumulation loop of `GetCart`: deserializes each stored entry,
aborting on the first failure, accumulating
`totalPrice += CartItem.Price * float64(CartItem.Quantity)` and
`totalItems += CartItem.Quantity`. -/
def getCartLoop : List (String × StoredVal) → Rat → Int → Except CartErr (Rat × Int)
  | [], totalPrice, totalItems => .ok (totalPrice, totalItems)
  | (_, details) :: rest, totalPrice, totalItems =>
    match jsonUnmarshal details with
    | none => .error .corruptEntry
    | some cartItem =>
        getCartLoop rest (totalPrice + cartItem.Price * (cartItem.Quantity : Rat))
          (totalItems + cartItem.Quantity)

/-- Translation of `ShoppingCart.GetCart`: `HGetAll` on the user's key (fault `f`), then the
accumulation loop; returns the raw field map with both totals. -/
def GetCart (f : Option String) (st : RedisState) (userID : Int) :
    RedisState × Except CartErr (List (String × StoredVal) × Rat × Int) :=
  match f with
  | some e => (st, .error (.storeErr e))
  | none =>
    let res := hgetAll st (cartKey userID)
    match getCartLoop res 0 0 with
    | .error e => (st, .error e)
    | .ok (totalPrice, totalItems) => (st, .ok (res, totalPrice, totalItems))

/-- Translation of `ShoppingCart.AddItem` (validated version): quantity and SKU checks,
catalog lookup, stock check, then `HSet` (fault `f1`) and `Expire`
(fault `f2`). -/
def AddItem (cat : Catalog) (ttl : Int) (f1 f2 : Option String)
    (st : RedisState) (userID quantity : Int) (sku : String) :
    RedisState × Except CartErr Item :=
  if quantity ≤ 0 then (st, .error .invalidQuantity)
  else if sku = "" then (st, .error .invalidSKU)
  else
    let key := cartKey userID
    match cat sku with
    | .notFound => (st, .error .productNotFound)
    | .failed e => (st, .error (.catalogErr e))
    | .found p =>
      if p.StockQuantity < quantity then (st, .error .insufficientStock)
      else
        let item : Item :=
          { Quantity := quantity, Price := p.Price, Name := p.Name,
            ImageURL := p.ImageUrl,
            ItemTotalPrice := (quantity : Rat) * p.Price }
        match f1 with
        | some e => (st, .error (.storeErr e))
        | none =>
          let st1 := hsetOp st key sku (jsonMarshal item)
          match f2 with
          | some e => (st1, .error (.storeErr e))
          | none => (expireOp st1 key ttl, .ok item)

/-- Translation of `ShoppingCart.UpdateItemQuantity`: quantity and SKU checks, `HGet`
(fault `f1`, `redis.Nil` → `ErrItemNotFound`), catalog lookup, stock check,
deserialize the stored entry, set `item.Quantity = quantity` (only), then
`HSet` (fault `f2`) and `Expire` (fault `f3`). -/
def UpdateItemQuantity (cat : Catalog) (ttl : Int) (f1 f2 f3 : Option String)
    (st : RedisState) (userID quantity : Int) (sku : String) :
    RedisState × Except CartErr Item :=
  if quantity ≤ 0 then (st, .error .invalidQuantity)
  else if sku = "" then (st, .error .invalidSKU)
  else
    let key := cartKey userID
    match f1 with
    | some e => (st, .error (.storeErr e))
    | none =>
      match hget st key sku with
      | none => (st, .error .itemNotFound)
      | some result =>
        match cat sku with
        | .notFound => (st, .error .productNotFound)
        | .failed e => (st, .error (.catalogErr e))
        | .found p =>
          if p.StockQuantity < quantity then (st, .error .insufficientStock)
          else
            match jsonUnmarshal result with
            | none => (st, .error .corruptEntry)
            | some item0 =>
              let item := { item0 with Quantity := quantity }
              match f2 with
              | some e => (st, .error (.storeErr e))
              | none =>
                let st1 := hsetOp st key sku (jsonMarshal item)
                match f3 with
                | some e => (st1, .error (.storeErr e))
                | none => (expireOp st1 key ttl, .ok item)

/-- Translation of `ShoppingCart.RemoveItem`: fire-and-forget `HDel`; the Go function has no
return value, so the call's error (fault `f`) is discarded. -/
def RemoveItem (f : Option String) (st : RedisState) (userID : Int) (sku : String) :
    RedisState :=
  match f with
  | some _ => st
  | none => hdelOp st (cartKey userID) sku

/-- Translation of `ShoppingCart.ClearCart`: fire-and-forget `Del`; the call's error
(fault `f`) is discarded. -/
def ClearCart (f : Option String) (st : RedisState) (userID : Int) : RedisState :=
  match f with
  | some _ => st
  | none => delKeyOp st (cartKey userID)

/-- Translation of `Server.RemoveItem` (server.go): calls `Cart.RemoveItem` and returns
`&pb.RemoveItemResponse{}, nil` unconditionally (the error slot models the
gRPC status; it is always `ok`). -/
def serverRemoveItem (f : Option String) (st : RedisState) (userID : Int) (sku : String) :
    RedisState × Except String Unit :=
  (RemoveItem f st userID sku, .ok ())

/-- Translation of `Server.ClearCart` (server.go): calls `Cart.ClearCart` and returns
`&pb.ClearCartResponse{}, nil` unconditionally. -/
def serverClearCart (f : Option String) (st : RedisState) (userID : Int) :
    RedisState × Except String Unit :=
  (ClearCart f st userID, .ok ())

/-- Modelled from the spec: the total price a cart's entries should aggregate
to — the sum over all entries of quantity × unitPrice (entries that fail to
decode contribute nothing; the claims using this assume all entries decode). -/
def specTotalPrice : List (String × StoredVal) → Rat
  | [] => 0
  | (_, v) :: r =>
    (match jsonUnmarshal v with
     | some i => i.Price * (i.Quantity : Rat)
     | none => 0) + specTotalPrice r

/-- Modelled from the spec: the total item count — the sum of all entries'
quantities. -/
def specTotalItems : List (String × StoredVal) → Int
  | [] => 0
  | (_, v) :: r =>
    (match jsonUnmarshal v with
     | some i => i.Quantity
     | none => 0) + specTotalItems r

/-! ### Concrete example data (used by counterexamples and witnesses) -/

/-- An empty store. -/
def emptyStore : RedisState := { hashes := [], expire := [] }

/-- A cart entry as an earlier `AddItem` would have stored it: price 5,
line total 2 × 5 = 10. -/
def oldItem : Item :=
  { Quantity := 2, Price := 5, Name := "Old", ImageURL := "old.png", ItemTotalPrice := 10 }

/-- A store holding one cart (user 7) with one entry (SKU "S") written at
catalog price 5. -/
def exState : RedisState :=
  { hashes := [("cart:7", [("S", jsonMarshal oldItem)])], expire := [] }

/-- A catalog that now reports different data for every SKU: price 7, new
name and image, stock 10. -/
def exCatalog : Catalog :=
  fun _ => .found { Price := 7, Name := "New", ImageUrl := "new.png", StockQuantity := 10 }

/-- A catalog with price 10, ample stock. -/
def exCatalog10 : Catalog :=
  fun _ => .found { Price := 10, Name := "Widget", ImageUrl := "w.png", StockQuantity := 100 }

/-- Store state after `AddItem(user 1, qty 2, "SKU-1")` against `exCatalog10`. -/
def exAfterAdd : RedisState := (AddItem exCatalog10 60 none none emptyStore 1 2 "SKU-1").1

/-- Store state after then updating the quantity to 5. -/
def exAfterUpdate : RedisState :=
  (UpdateItemQuantity exCatalog10 60 none none none exAfterAdd 1 5 "SKU-1").1

/-- A store whose user-9 cart holds one well-formed entry and one blob that
does not deserialize. -/
def exCorruptState : RedisState :=
  { hashes := [("cart:9", [("A", jsonMarshal oldItem), ("B", .blob "not json")])],
    expire := [] }

/-! ### Association-list and store-operation lemmas -/

theorem alGet_alSet_self {α : Type} (l : List (String × α)) (k : String) (v : α) :
    alGet (alSet l k v) k = some v := by
  induction l with
  | nil => simp [alGet, alSet]
  | cons hd tl ih =>
    obtain ⟨k1, v1⟩ := hd
    by_cases h : k1 = k <;> simp [alGet, alSet, h, ih]

theorem alSet_alSet {α : Type} (l : List (String × α)) (k : String) (w v : α) :
    alSet (alSet l k w) k v = alSet l k v := by
  induction l with
  | nil => simp [alSet]
  | cons hd tl ih =>
    obtain ⟨k1, v1⟩ := hd
    by_cases h : k1 = k <;> simp [alSet, h, ih]

theorem alGet_alDel {α : Type} (l : List (String × α)) (q k : String) :
    alGet (alDel l q) k = if k = q then none else alGet l k := by
  induction l with
  | nil => simp [alGet, alDel]
  | cons hd tl ih =>
    obtain ⟨k1, v1⟩ := hd
    by_cases h2 : k = q
    · subst h2
      by_cases h : k1 = k <;> simp [alGet, alDel, h, ih]
    · by_cases h : k1 = q
      · have h3 : ¬ k1 = k := fun hh => h2 (hh.symm.trans h)
        have h4 : ¬ q = k := fun hh => h2 hh.symm
        simp [alGet, alDel, h, h2, h3, h4, ih]
      · simp [alGet, alDel, h, h2, ih]


theorem hget_hsetOp_self (st : RedisState) (key f : String) (v : StoredVal) :
    hget (hsetOp st key f v) key f = some v := by
  simp [hget, hsetOp, hgetAll, alGet_alSet_self]

theorem hget_expireOp (st : RedisState) (key : String) (ttl : Int) (k f : String) :
    hget (expireOp st key ttl) k f = hget st k f := by
  unfold expireOp
  split <;> simp [hget, hgetAll]

theorem expire_after_write (st : RedisState) (key f : String) (v : StoredVal) (ttl : Int) :
    alGet (expireOp (hsetOp st key f v) key ttl).expire key = some ttl := by
  have h : alGet (hsetOp st key f v).hashes key
      = some (alSet (hgetAll st key) f v) := by
    simp [hsetOp, alGet_alSet_self]
  simp [expireOp, h, alGet_alSet_self, hsetOp]

/-- Writing the same value and TTL a second time leaves the store unchanged. -/
theorem add_write_idem (st : RedisState) (key f : String) (v : StoredVal) (ttl : Int) :
    expireOp (hsetOp (expireOp (hsetOp st key f v) key ttl) key f v) key ttl
      = expireOp (hsetOp st key f v) key ttl := by
  simp [hsetOp, hgetAll, expireOp, alGet_alSet_self, alSet_alSet]

/-- The full output of a successful `AddItem` run, given the conditions the
success path takes. -/
theorem AddItem_run (cat : Catalog) (ttl : Int) (st : RedisState) (u q : Int) (s : String)
    (p : Product) (hq : ¬ q ≤ 0) (hs : ¬ s = "") (hcat : cat s = .found p)
    (hstock : ¬ p.StockQuantity < q) :
    AddItem cat ttl none none st u q s
      = (expireOp (hsetOp st (cartKey u) s (jsonMarshal
            { Quantity := q, Price := p.Price, Name := p.Name, ImageURL := p.ImageUrl,
              ItemTotalPrice := (q : Rat) * p.Price })) (cartKey u) ttl,
         Except.ok { Quantity := q, Price := p.Price, Name := p.Name, ImageURL := p.ImageUrl,
                     ItemTotalPrice := (q : Rat) * p.Price }) := by
  simp [AddItem, hq, hs, hcat, hstock]

/-- Inversion: everything a successful `AddItem` implies about its inputs. -/
theorem AddItem_ok_inv {cat : Catalog} {ttl : Int} {f1 f2 : Option String}
    {st : RedisState} {u q : Int} {s : String} {it : Item}
    (h : (AddItem cat ttl f1 f2 st u q s).2 = Except.ok it) :
    ¬ q ≤ 0 ∧ ¬ s = "" ∧ f1 = none ∧ f2 = none ∧
      ∃ p, cat s = CatalogReply.found p ∧ ¬ p.StockQuantity < q ∧
        it = { Quantity := q, Price := p.Price, Name := p.Name, ImageURL := p.ImageUrl,
               ItemTotalPrice := (q : Rat) * p.Price } := by
  unfold AddItem at h
  by_cases hq : q ≤ 0
  · simp [hq] at h
  by_cases hs : s = ""
  · simp [hq, hs] at h
  simp only [if_neg hq, if_neg hs] at h
  rcases hcat : cat s with p | _ | e <;> rw [hcat] at h
  · by_cases hstock : p.StockQuantity < q
    · simp [hstock] at h
    simp only [if_neg hstock] at h
    rcases f1 with _ | e1
    · rcases f2 with _ | e2
      · simp at h
        exact ⟨hq, hs, rfl, rfl, p, rfl, hstock, h.symm⟩
      · simp at h
    · simp at h
  · simp at h
  · simp at h

/-- The full output of a successful `UpdateItemQuantity` run, given the
conditions the success path takes: only `Quantity` is patched. -/
theorem Update_run (cat : Catalog) (ttl : Int) (st : RedisState) (u q : Int) (s : String)
    (v : StoredVal) (p : Product) (it0 : Item)
    (hq : ¬ q ≤ 0) (hs : ¬ s = "") (hstored : hget st (cartKey u) s = some v)
    (hcat : cat s = .found p) (hstock : ¬ p.StockQuantity < q)
    (hdec : jsonUnmarshal v = some it0) :
    UpdateItemQuantity cat ttl none none none st u q s
      = (expireOp (hsetOp st (cartKey u) s (jsonMarshal { it0 with Quantity := q }))
           (cartKey u) ttl,
         Except.ok { it0 with Quantity := q }) := by
  simp [UpdateItemQuantity, hq, hs, hstored, hcat, hstock, hdec]

/-- Inversion: everything a successful `UpdateItemQuantity` implies. -/
theorem Update_ok_inv {cat : Catalog} {ttl : Int} {f1 f2 f3 : Option String}
    {st : RedisState} {u q : Int} {s : String} {it : Item}
    (h : (UpdateItemQuantity cat ttl f1 f2 f3 st u q s).2 = Except.ok it) :
    ¬ q ≤ 0 ∧ ¬ s = "" ∧ f1 = none ∧ f2 = none ∧ f3 = none ∧
      ∃ v p it0, hget st (cartKey u) s = some v ∧ cat s = CatalogReply.found p ∧
        ¬ p.StockQuantity < q ∧ jsonUnmarshal v = some it0 ∧
        it = { it0 with Quantity := q } := by
  unfold UpdateItemQuantity at h
  by_cases hq : q ≤ 0
  · simp [hq] at h
  by_cases hs : s = ""
  · simp [hq, hs] at h
  simp only [if_neg hq, if_neg hs] at h
  rcases f1 with _ | e1
  · rcases hv : hget st (cartKey u) s with _ | v <;> rw [hv] at h
    · simp at h
    rcases hcat : cat s with p | _ | e <;> rw [hcat] at h
    · by_cases hstock : p.StockQuantity < q
      · simp [hstock] at h
      simp only [if_neg hstock] at h
      rcases hdec : jsonUnmarshal v with _ | it0 <;> rw [hdec] at h
      · simp at h
      rcases f2 with _ | e2
      · rcases f3 with _ | e3
        · simp at h
          exact ⟨hq, hs, rfl, rfl, rfl, v, p, it0, rfl, rfl, hstock, hdec, h.symm⟩
        · simp at h
      · simp at h
    · simp at h
    · simp at h
  · simp at h

/-- When every entry deserializes, the GetCart loop succeeds and accumulates
exactly the spec-side sums on top of its accumulators. -/
theorem getCartLoop_ok (l : List (String × StoredVal)) :
    (∀ pr ∈ l, (jsonUnmarshal pr.2).isSome = true) → ∀ (tp : Rat) (ti : Int),
      getCartLoop l tp ti = .ok (tp + specTotalPrice l, ti + specTotalItems l) := by
  induction l with
  | nil => intro _ tp ti; simp [getCartLoop, specTotalPrice, specTotalItems]
  | cons hd tl ih =>
    intro hdec tp ti
    obtain ⟨f, v⟩ := hd
    have h1 : (jsonUnmarshal v).isSome = true := hdec (f, v) (by simp)
    rcases hv : jsonUnmarshal v with _ | i
    · rw [hv] at h1; simp at h1
    · have hdec2 : ∀ pr ∈ tl, (jsonUnmarshal pr.2).isSome = true :=
        fun pr hpr => hdec pr (by simp [hpr])
      simp [getCartLoop, specTotalPrice, specTotalItems, hv, ih hdec2, add_assoc]

/-- When some entry fails to deserialize, the GetCart loop aborts with the
corrupt-entry error. -/
theorem getCartLoop_corrupt (l : List (String × StoredVal)) :
    (∃ pr ∈ l, jsonUnmarshal pr.2 = none) → ∀ (tp : Rat) (ti : Int),
      getCartLoop l tp ti = .error .corruptEntry := by
  induction l with
  | nil => intro h; simp at h
  | cons hd tl ih =>
    intro h tp ti
    obtain ⟨f, v⟩ := hd
    rcases hv : jsonUnmarshal v with _ | i
    · simp [getCartLoop, hv]
    · rcases h with ⟨pr, hpr, hnone⟩
      rcases List.mem_cons.mp hpr with heq | hmem
      · subst heq; rw [hv] at hnone; simp at hnone
      · simp only [getCartLoop, hv]
        exact ih ⟨pr, hmem, hnone⟩ _ _

/-- C1 (counterexample): the claim is false on the code. With the entry for
SKU "S" stored at price 5 / name "Old" / image "old.png" by the earlier
AddItem, and the catalog now returning price 7 / name "New" / image
"new.png" with ample stock, a successful UpdateItemQuantity to quantity 3
persists the OLD price, name and image, not the values the in-call catalog
lookup returned. -/
theorem C1_update_resnapshot_cex :
    (UpdateItemQuantity exCatalog 60 none none none exState 7 3 "S").2
      = Except.ok { Quantity := 3, Price := 5, Name := "Old", ImageURL := "old.png",
                    ItemTotalPrice := 10 } ∧
    hget (UpdateItemQuantity exCatalog 60 none none none exState 7 3 "S").1 (cartKey 7) "S"
      = some (jsonMarshal { Quantity := 3, Price := 5, Name := "Old", ImageURL := "old.png",
                            ItemTotalPrice := 10 }) ∧
    exCatalog "S" = CatalogReply.found { Price := 7, Name := "New", ImageUrl := "new.png",
                                         StockQuantity := 10 } ∧
    (5 : Rat) ≠ 7 ∧ "Old" ≠ "New" ∧ "old.png" ≠ "new.png" :=
  ⟨rfl, by decide, rfl, by norm_num, by decide, by decide⟩

/-- C1 (amended): for every UpdateItemQuantity call that succeeds
(quantity ≥ 1, non-empty sku, entry present and deserializable, catalog
lookup succeeds with stock ≥ quantity), the entry persisted for that sku
carries the new quantity but RETAINS the price, name and image reference of
the entry stored by the earlier AddItem; the in-call catalog lookup is used
only for existence and stock validation. -/
theorem C1_update_keeps_add_snapshot (cat : Catalog) (ttl : Int) (st : RedisState)
    (u q : Int) (s : String) (v : StoredVal) (it0 : Item) (p : Product)
    (hq : 1 ≤ q) (hs : s ≠ "") (hv : hget st (cartKey u) s = some v)
    (hdec : jsonUnmarshal v = some it0) (hcat : cat s = CatalogReply.found p)
    (hstock : q ≤ p.StockQuantity) :
    (UpdateItemQuantity cat ttl none none none st u q s).2
      = Except.ok { it0 with Quantity := q } ∧
    hget (UpdateItemQuantity cat ttl none none none st u q s).1 (cartKey u) s
      = some (jsonMarshal { it0 with Quantity := q }) ∧
    ({ it0 with Quantity := q }).Price = it0.Price ∧
    ({ it0 with Quantity := q }).Name = it0.Name ∧
    ({ it0 with Quantity := q }).ImageURL = it0.ImageURL := by
  have hq2 : ¬ q ≤ 0 := by omega
  have hstock2 : ¬ p.StockQuantity < q := by omega
  have hrun := Update_run cat ttl st u q s v p it0 hq2 hs hv hcat hstock2 hdec
  have hst : (UpdateItemQuantity cat ttl none none none st u q s).1
      = expireOp (hsetOp st (cartKey u) s (jsonMarshal { it0 with Quantity := q }))
          (cartKey u) ttl := by rw [hrun]
  refine ⟨by rw [hrun], ?_, rfl, rfl, rfl⟩
  rw [hst, hget_expireOp, hget_hsetOp_self]

/-- C1 (witness for the amended theorem): the amended theorem applied to the
concrete scenario of the counterexample. -/
theorem C1_update_keeps_add_snapshot_witness :
    ((1 : Int) ≤ 3 ∧ ("S" : String) ≠ "" ∧
     hget exState (cartKey 7) "S" = some (jsonMarshal oldItem) ∧
     jsonUnmarshal (jsonMarshal oldItem) = some oldItem ∧
     exCatalog "S" = CatalogReply.found { Price := 7, Name := "New", ImageUrl := "new.png",
                                          StockQuantity := 10 } ∧
     (3 : Int) ≤ 10) ∧
    ((UpdateItemQuantity exCatalog 60 none none none exState 7 3 "S").2
        = Except.ok { oldItem with Quantity := 3 } ∧
     hget (UpdateItemQuantity exCatalog 60 none none none exState 7 3 "S").1 (cartKey 7) "S"
        = some (jsonMarshal { oldItem with Quantity := 3 }) ∧
     ({ oldItem with Quantity := 3 }).Price = oldItem.Price ∧
     ({ oldItem with Quantity := 3 }).Name = oldItem.Name ∧
     ({ oldItem with Quantity := 3 }).ImageURL = oldItem.ImageURL) :=
  ⟨⟨by decide, by decide, by decide, rfl, rfl, by decide⟩,
   C1_update_keeps_add_snapshot exCatalog 60 exState 7 3 "S" (jsonMarshal oldItem) oldItem
     { Price := 7, Name := "New", ImageUrl := "new.png", StockQuantity := 10 }
     (by decide) (by decide) (by decide) rfl rfl (by decide)⟩

/-- C2 (code-bug evaluation): after AddItem(user 1, qty 2, "SKU-1") at catalog
price 10 (stored line total 2 × 10) and a successful
UpdateItemQuantity(user 1, qty 5, "SKU-1"), the persisted entry holds
quantity 5, unit price 10, but line total still 2 × 10 = 20 — not
5 × 10 = 50: the stored line total is NOT recomputed from the new quantity,
violating the lineTotal = quantity × unitPrice invariant. -/
theorem C2_stale_line_total :
    hget exAfterUpdate (cartKey 1) "SKU-1"
      = some (jsonMarshal { Quantity := 5, Price := 10, Name := "Widget", ImageURL := "w.png",
                            ItemTotalPrice := (2 : Int) * 10 }) ∧
    ((2 : Int) * 10 : Rat) ≠ ((5 : Int) : Rat) * 10 :=
  ⟨rfl, by norm_num⟩

/-- C3 (counterexample): the claim is false on the code. With the HDel store
call failing ("store unavailable"), RemoveItem leaves the entry in place and
the server still answers the caller with success — the store failure is
silently discarded, not classified and returned. -/
theorem C3_remove_discards_failure_cex :
    serverRemoveItem (some "store unavailable") exState 7 "S" = (exState, Except.ok ()) ∧
    hget exState (cartKey 7) "S" = some (jsonMarshal oldItem) :=
  ⟨rfl, by decide⟩

/-- C3 (amended): GetCart, AddItem and UpdateItemQuantity never discard a
store failure — GetCart returns it as an error directly, and AddItem /
UpdateItemQuantity can only succeed when none of their store calls failed —
but RemoveItem and ClearCart discard the outcome of their store call and
always report success to the caller. -/
theorem C3_store_failure_propagation :
    (∀ (e : String) (st : RedisState) (u : Int),
        GetCart (some e) st u = (st, Except.error (CartErr.storeErr e))) ∧
    (∀ (cat : Catalog) (ttl : Int) (f1 f2 : Option String) (st : RedisState)
        (u q : Int) (s : String) (it : Item),
        (AddItem cat ttl f1 f2 st u q s).2 = Except.ok it → f1 = none ∧ f2 = none) ∧
    (∀ (cat : Catalog) (ttl : Int) (f1 f2 f3 : Option String) (st : RedisState)
        (u q : Int) (s : String) (it : Item),
        (UpdateItemQuantity cat ttl f1 f2 f3 st u q s).2 = Except.ok it →
          f1 = none ∧ f2 = none ∧ f3 = none) ∧
    (∀ (f : Option String) (st : RedisState) (u : Int) (s : String),
        (serverRemoveItem f st u s).2 = Except.ok ()) ∧
    (∀ (f : Option String) (st : RedisState) (u : Int),
        (serverClearCart f st u).2 = Except.ok ()) := by
  refine ⟨fun e st u => rfl, ?_, ?_, fun f st u s => rfl, fun f st u => rfl⟩
  · intro cat ttl f1 f2 st u q s it h
    obtain ⟨-, -, h1, h2, -⟩ := AddItem_ok_inv h
    exact ⟨h1, h2⟩
  · intro cat ttl f1 f2 f3 st u q s it h
    obtain ⟨-, -, h1, h2, h3, -⟩ := Update_ok_inv h
    exact ⟨h1, h2, h3⟩

/-- C3 (witness for the amended theorem): each conjunct applied at a concrete
input; the success hypotheses are discharged by computation. -/
theorem C3_store_failure_propagation_witness :
    GetCart (some "io down") exState 7 = (exState, Except.error (CartErr.storeErr "io down")) ∧
    ((none : Option String) = none ∧ (none : Option String) = none) ∧
    ((none : Option String) = none ∧ (none : Option String) = none ∧
     (none : Option String) = none) ∧
    (serverRemoveItem (some "io down") exState 7 "S").2 = Except.ok () ∧
    (serverClearCart (some "io down") exState 7).2 = Except.ok () :=
  ⟨C3_store_failure_propagation.1 "io down" exState 7,
   C3_store_failure_propagation.2.1 exCatalog 60 none none emptyStore 1 1 "S"
     { Quantity := 1, Price := 7, Name := "New", ImageURL := "new.png",
       ItemTotalPrice := (1 : Int) * 7 } rfl,
   C3_store_failure_propagation.2.2.1 exCatalog 60 none none none exState 7 3 "S"
     { oldItem with Quantity := 3 } rfl,
   C3_store_failure_propagation.2.2.2.1 (some "io down") exState 7 "S",
   C3_store_failure_propagation.2.2.2.2 (some "io down") exState 7⟩

/-- C4: every AddItem or UpdateItemQuantity call with quantity ≤ 0 returns
InvalidQuantity with the store state unchanged, for every catalog behaviour
and every store-call fault assignment (so no store and no catalog call can
have been made). -/
theorem C4_invalid_quantity_no_effect (cat : Catalog) (ttl : Int)
    (f1 f2 g1 g2 g3 : Option String) (st : RedisState) (u q : Int) (s : String)
    (hq : q ≤ 0) :
    AddItem cat ttl f1 f2 st u q s = (st, Except.error CartErr.invalidQuantity) ∧
    UpdateItemQuantity cat ttl g1 g2 g3 st u q s
      = (st, Except.error CartErr.invalidQuantity) := by
  constructor <;> simp [AddItem, UpdateItemQuantity, hq]

/-- C4 (witness): quantity 0 with arbitrary concrete faults and catalog. -/
theorem C4_invalid_quantity_no_effect_witness :
    (0 : Int) ≤ 0 ∧
    (AddItem exCatalog 60 (some "io") none exState 7 0 "S"
        = (exState, Except.error CartErr.invalidQuantity) ∧
     UpdateItemQuantity exCatalog 60 none (some "io") none exState 7 0 "S"
        = (exState, Except.error CartErr.invalidQuantity)) :=
  ⟨by decide,
   C4_invalid_quantity_no_effect exCatalog 60 (some "io") none none (some "io") none
     exState 7 0 "S" (by decide)⟩

/-- C5: every UpdateItemQuantity call with valid inputs whose sku has no entry
in the user's cart returns ItemNotFound, for every behaviour of the catalog
client (the store existence check precedes the catalog call). -/
theorem C5_update_absent_item_not_found (cat : Catalog) (ttl : Int)
    (g2 g3 : Option String) (st : RedisState) (u q : Int) (s : String)
    (hq : 1 ≤ q) (hs : s ≠ "") (habs : hget st (cartKey u) s = none) :
    UpdateItemQuantity cat ttl none g2 g3 st u q s
      = (st, Except.error CartErr.itemNotFound) := by
  have hq2 : ¬ q ≤ 0 := by omega
  simp [UpdateItemQuantity, hq2, hs, habs]

/-- C5 (witness): user 1 has no cart in `exState`; the update fails with
ItemNotFound against a catalog that would otherwise accept it. -/
theorem C5_update_absent_item_not_found_witness :
    (1 : Int) ≤ 2 ∧ ("S" : String) ≠ "" ∧ hget exState (cartKey 1) "S" = none ∧
    UpdateItemQuantity exCatalog 60 none none none exState 1 2 "S"
      = (exState, Except.error CartErr.itemNotFound) :=
  ⟨by decide, by decide, by decide,
   C5_update_absent_item_not_found exCatalog 60 none none exState 1 2 "S"
     (by decide) (by decide) (by decide)⟩

/-- C6: AddItem is overwrite-idempotent — whenever an AddItem call succeeds,
running the identical call again from the resulting state succeeds with the
same returned entry and leaves the store state exactly as after the first
call; the persisted entry holds the given quantity (not a sum). -/
theorem C6_addItem_idempotent (cat : Catalog) (ttl : Int) (st : RedisState)
    (u q : Int) (s : String) (it : Item)
    (h : (AddItem cat ttl none none st u q s).2 = Except.ok it) :
    AddItem cat ttl none none ((AddItem cat ttl none none st u q s).1) u q s
      = ((AddItem cat ttl none none st u q s).1, Except.ok it) ∧
    hget ((AddItem cat ttl none none st u q s).1) (cartKey u) s = some (jsonMarshal it) ∧
    it.Quantity = q := by
  obtain ⟨hq, hs, -, -, p, hcat, hstock, hit⟩ := AddItem_ok_inv h
  subst hit
  have h1 := AddItem_run cat ttl st u q s p hq hs hcat hstock
  have hst : (AddItem cat ttl none none st u q s).1
      = expireOp (hsetOp st (cartKey u) s (jsonMarshal
          { Quantity := q, Price := p.Price, Name := p.Name, ImageURL := p.ImageUrl,
            ItemTotalPrice := (q : Rat) * p.Price })) (cartKey u) ttl := by rw [h1]
  refine ⟨?_, ?_, rfl⟩
  · rw [hst, AddItem_run cat ttl _ u q s p hq hs hcat hstock, add_write_idem]
  · rw [hst, hget_expireOp, hget_hsetOp_self]

/-- C6 (witness): the idempotence theorem applied to the concrete first call
AddItem(user 1, qty 2, "SKU-1") against `exCatalog10`. -/
theorem C6_addItem_idempotent_witness :
    (AddItem exCatalog10 60 none none emptyStore 1 2 "SKU-1").2
      = Except.ok { Quantity := 2, Price := 10, Name := "Widget", ImageURL := "w.png",
                    ItemTotalPrice := (2 : Int) * 10 } ∧
    (AddItem exCatalog10 60 none none exAfterAdd 1 2 "SKU-1"
        = (exAfterAdd,
           Except.ok { Quantity := 2, Price := 10, Name := "Widget", ImageURL := "w.png",
                       ItemTotalPrice := (2 : Int) * 10 }) ∧
     hget exAfterAdd (cartKey 1) "SKU-1"
        = some (jsonMarshal { Quantity := 2, Price := 10, Name := "Widget", ImageURL := "w.png",
                              ItemTotalPrice := (2 : Int) * 10 }) ∧
     ({ Quantity := 2, Price := 10, Name := "Widget", ImageURL := "w.png",
        ItemTotalPrice := ((2 : Int) * 10 : Rat) } : Item).Quantity = 2) :=
  ⟨rfl,
   C6_addItem_idempotent exCatalog10 60 emptyStore 1 2 "SKU-1"
     { Quantity := 2, Price := 10, Name := "Widget", ImageURL := "w.png",
       ItemTotalPrice := (2 : Int) * 10 } rfl⟩

/-- C7: for every cart state whose entries all deserialize, GetCart succeeds
and returns exactly the stored entries together with totalPrice = the sum
over all entries of quantity × unitPrice and totalItemCount = the sum of
quantities; an empty or nonexistent cart yields an empty collection and zero
totals, not an error. -/
theorem C7_getCart_totals (st : RedisState) (u : Int)
    (hdec : ∀ pr ∈ hgetAll st (cartKey u), (jsonUnmarshal pr.2).isSome = true) :
    GetCart none st u
      = (st, Except.ok (hgetAll st (cartKey u),
          specTotalPrice (hgetAll st (cartKey u)),
          specTotalItems (hgetAll st (cartKey u)))) ∧
    (hgetAll st (cartKey u) = [] → GetCart none st u = (st, Except.ok ([], 0, 0))) := by
  have hloop := getCartLoop_ok (hgetAll st (cartKey u)) hdec 0 0
  constructor
  · simp [GetCart, hloop]
  · intro hempty
    simp [GetCart, hempty, getCartLoop]

/-- C7 (witness): on `exState` the totals are 2 × 5 = 10 and 2; on the empty
store GetCart returns empty entries and zero totals. -/
theorem C7_getCart_totals_witness :
    (∀ pr ∈ hgetAll exState (cartKey 7), (jsonUnmarshal pr.2).isSome = true) ∧
    GetCart none exState 7
      = (exState, Except.ok (hgetAll exState (cartKey 7),
          specTotalPrice (hgetAll exState (cartKey 7)),
          specTotalItems (hgetAll exState (cartKey 7)))) ∧
    specTotalPrice (hgetAll exState (cartKey 7)) = 10 ∧
    specTotalItems (hgetAll exState (cartKey 7)) = 2 ∧
    GetCart none emptyStore 1 = (emptyStore, Except.ok ([], 0, 0)) :=
  ⟨by decide,
   (C7_getCart_totals exState 7 (by decide)).1,
   by norm_num [specTotalPrice, hgetAll, exState, alGet, jsonMarshal, jsonUnmarshal, oldItem],
   by decide,
   (C7_getCart_totals emptyStore 1 (by decide)).2 (by decide)⟩

/-- C8: for every cart state containing at least one stored value that fails
to deserialize, GetCart returns the CorruptEntry error (and with it no
entries and no totals — the error carries no partial results). -/
theorem C8_getCart_corrupt_aborts (st : RedisState) (u : Int)
    (h : ∃ pr ∈ hgetAll st (cartKey u), jsonUnmarshal pr.2 = none) :
    GetCart none st u = (st, Except.error CartErr.corruptEntry) := by
  have hloop := getCartLoop_corrupt (hgetAll st (cartKey u)) h 0 0
  simp [GetCart, hloop]

/-- C8 (witness): `exCorruptState` holds one good entry and one undecodable
blob; GetCart aborts with CorruptEntry. -/
theorem C8_getCart_corrupt_aborts_witness :
    (∃ pr ∈ hgetAll exCorruptState (cartKey 9), jsonUnmarshal pr.2 = none) ∧
    GetCart none exCorruptState 9 = (exCorruptState, Except.error CartErr.corruptEntry) :=
  ⟨by decide, C8_getCart_corrupt_aborts exCorruptState 9 (by decide)⟩

/-- A catalog whose stock (1) is below the quantities requested in the C10
witness. -/
def exCatalogLow : Catalog :=
  fun _ => .found { Price := 7, Name := "New", ImageUrl := "new.png", StockQuantity := 1 }

/-- C9: after every successful AddItem or UpdateItemQuantity the user's cart
key carries the configured idle TTL; GetCart leaves the whole store (hence
every expiry) unchanged, and RemoveItem / ClearCart never set or extend any
key's expiry (each key's expiry is either unchanged or gone). -/
theorem C9_ttl_policy :
    (∀ (cat : Catalog) (ttl : Int) (st : RedisState) (u q : Int) (s : String) (it : Item),
        (AddItem cat ttl none none st u q s).2 = Except.ok it →
        alGet ((AddItem cat ttl none none st u q s).1).expire (cartKey u) = some ttl) ∧
    (∀ (cat : Catalog) (ttl : Int) (st : RedisState) (u q : Int) (s : String) (it : Item),
        (UpdateItemQuantity cat ttl none none none st u q s).2 = Except.ok it →
        alGet ((UpdateItemQuantity cat ttl none none none st u q s).1).expire (cartKey u)
          = some ttl) ∧
    (∀ (f : Option String) (st : RedisState) (u : Int), (GetCart f st u).1 = st) ∧
    (∀ (f : Option String) (st : RedisState) (u : Int) (s k : String),
        alGet (RemoveItem f st u s).expire k = alGet st.expire k ∨
        alGet (RemoveItem f st u s).expire k = none) ∧
    (∀ (f : Option String) (st : RedisState) (u : Int) (k : String),
        alGet (ClearCart f st u).expire k = alGet st.expire k ∨
        alGet (ClearCart f st u).expire k = none) := by
  refine ⟨?_, ?_, ?_, ?_, ?_⟩
  · intro cat ttl st u q s it h
    obtain ⟨hq, hs, -, -, p, hcat, hstock, hit⟩ := AddItem_ok_inv h
    have h1 := AddItem_run cat ttl st u q s p hq hs hcat hstock
    have hst : (AddItem cat ttl none none st u q s).1
        = expireOp (hsetOp st (cartKey u) s (jsonMarshal
            { Quantity := q, Price := p.Price, Name := p.Name, ImageURL := p.ImageUrl,
              ItemTotalPrice := (q : Rat) * p.Price })) (cartKey u) ttl := by rw [h1]
    rw [hst, expire_after_write]
  · intro cat ttl st u q s it h
    obtain ⟨hq, hs, -, -, -, v, p, it0, hv, hcat, hstock, hdec, hit⟩ := Update_ok_inv h
    have h1 := Update_run cat ttl st u q s v p it0 hq hs hv hcat hstock hdec
    have hst : (UpdateItemQuantity cat ttl none none none st u q s).1
        = expireOp (hsetOp st (cartKey u) s (jsonMarshal { it0 with Quantity := q }))
            (cartKey u) ttl := by rw [h1]
    rw [hst, expire_after_write]
  · intro f st u
    cases f with
    | some e => rfl
    | none =>
      unfold GetCart
      rcases h : getCartLoop (hgetAll st (cartKey u)) 0 0 with e | ⟨tp, ti⟩ <;> simp [h]
  · intro f st u s k
    cases f with
    | some e => exact Or.inl rfl
    | none =>
      simp only [RemoveItem, hdelOp]
      by_cases hemp : (alDel (hgetAll st (cartKey u)) s).isEmpty = true
      · rw [if_pos hemp]
        rcases eq_or_ne k (cartKey u) with hk | hk
        · right; simp [alGet_alDel, hk]
        · left; simp [alGet_alDel, hk]
      · rw [if_neg hemp]
        exact Or.inl rfl
  · intro f st u k
    cases f with
    | some e => exact Or.inl rfl
    | none =>
      simp only [ClearCart, delKeyOp]
      rcases eq_or_ne k (cartKey u) with hk | hk
      · right; simp [alGet_alDel, hk]
      · left; simp [alGet_alDel, hk]

/-- C9 (witness): the TTL clauses applied to concrete successful mutations and
to concrete read/delete calls on `exState`. -/
theorem C9_ttl_policy_witness :
    alGet ((AddItem exCatalog10 60 none none emptyStore 1 2 "SKU-1").1).expire (cartKey 1)
      = some 60 ∧
    alGet ((UpdateItemQuantity exCatalog 60 none none none exState 7 3 "S").1).expire
        (cartKey 7) = some 60 ∧
    (GetCart none exState 7).1 = exState ∧
    (alGet (RemoveItem none exState 7 "S").expire (cartKey 7)
        = alGet exState.expire (cartKey 7) ∨
     alGet (RemoveItem none exState 7 "S").expire (cartKey 7) = none) ∧
    (alGet (ClearCart none exState 7).expire (cartKey 7)
        = alGet exState.expire (cartKey 7) ∨
     alGet (ClearCart none exState 7).expire (cartKey 7) = none) :=
  ⟨C9_ttl_policy.1 exCatalog10 60 emptyStore 1 2 "SKU-1"
     { Quantity := 2, Price := 10, Name := "Widget", ImageURL := "w.png",
       ItemTotalPrice := (2 : Int) * 10 } rfl,
   C9_ttl_policy.2.1 exCatalog 60 exState 7 3 "S" { oldItem with Quantity := 3 } rfl,
   C9_ttl_policy.2.2.1 none exState 7,
   C9_ttl_policy.2.2.2.1 none exState 7 "S" (cartKey 7),
   C9_ttl_policy.2.2.2.2 none exState 7 (cartKey 7)⟩

/-- C10: whenever the catalog reports stock strictly below the requested
quantity (on otherwise valid input), AddItem returns InsufficientStock with
the store state unchanged, and so does UpdateItemQuantity when the entry
exists — the error is returned before any write. -/
theorem C10_insufficient_stock_no_write (cat : Catalog) (ttl : Int)
    (f1 f2 g2 g3 : Option String) (p : Product) (st : RedisState)
    (u q : Int) (s : String)
    (hq : 1 ≤ q) (hs : s ≠ "") (hcat : cat s = CatalogReply.found p)
    (hstock : p.StockQuantity < q) :
    AddItem cat ttl f1 f2 st u q s = (st, Except.error CartErr.insufficientStock) ∧
    ∀ v, hget st (cartKey u) s = some v →
      UpdateItemQuantity cat ttl none g2 g3 st u q s
        = (st, Except.error CartErr.insufficientStock) := by
  have hq2 : ¬ q ≤ 0 := by omega
  constructor
  · simp [AddItem, hq2, hs, hcat, hstock]
  · intro v hv
    simp [UpdateItemQuantity, hq2, hs, hv, hcat, hstock]

/-- C10 (witness): requesting quantity 3 against stock 1 on `exState`, for
both AddItem and UpdateItemQuantity (whose entry "S" exists for user 7). -/
theorem C10_insufficient_stock_no_write_witness :
    ((1 : Int) ≤ 3 ∧ ("S" : String) ≠ "" ∧
     exCatalogLow "S" = CatalogReply.found { Price := 7, Name := "New",
                                             ImageUrl := "new.png", StockQuantity := 1 } ∧
     (1 : Int) < 3 ∧ hget exState (cartKey 7) "S" = some (jsonMarshal oldItem)) ∧
    (AddItem exCatalogLow 60 none none exState 7 3 "S"
        = (exState, Except.error CartErr.insufficientStock) ∧
     UpdateItemQuantity exCatalogLow 60 none none none exState 7 3 "S"
        = (exState, Except.error CartErr.insufficientStock)) :=
  ⟨⟨by decide, by decide, rfl, by decide, by decide⟩,
   (C10_insufficient_stock_no_write exCatalogLow 60 none none none none
       { Price := 7, Name := "New", ImageUrl := "new.png", StockQuantity := 1 }
       exState 7 3 "S" (by decide) (by decide) rfl (by decide)).1,
   (C10_insufficient_stock_no_write exCatalogLow 60 none none none none
       { Price := 7, Name := "New", ImageUrl := "new.png", StockQuantity := 1 }
       exState 7 3 "S" (by decide) (by decide) rfl (by decide)).2
     (jsonMarshal oldItem) (by decide)⟩
